import Mathlib

/-!
Shallow embedding of the SMB2 compound-operation engine of fs/cifs/smb2inode.c:
the builder/executor/interpreter `smb2_compound_op`, the query wrappers
`smb2_query_path_info` and `smb311_posix_query_path_info`, and
`smb2_set_file_info`.  External collaborators (wire encoders, the transport
`compound_send_recv`, `cifs_get_readable_path`, `open_cached_dir`,
`smb2_parse_symlink_response`, `kstrdup`, `smb2_validate_and_copy_iov`) are
modelled as oracle fields of an environment record: the embedded functions
reproduce the source's control flow over those oracle outcomes and record the
observable events (populated request slots, encoder fid arguments, the
executor invocation, response-buffer dispositions, the tcon reconnect flag,
wrapper call traces).
-/

namespace Smb2Inode

/-! ## Constants (errno values, SMB2 wire constants, cifs flags) -/

def ENOMEM : Int := 12
def ENOENT : Int := 2
def EINVAL : Int := 22
def EREMCHG : Int := 78
def EOPNOTSUPP : Int := 95
def EREMOTE : Int := 66

def SMB2_CREATE : Nat := 0x0005
def STATUS_STOPPED_ON_SYMLINK : Nat := 0x8000002D
def STATUS_OBJECT_NAME_INVALID : Nat := 0xC0000033

/-- `#define COMPOUND_FID 0xFFFFFFFFFFFFFFFFULL` -/
def COMPOUND_FID : Nat := 0xFFFFFFFFFFFFFFFF

/-- `CIFS_NO_BUFFER` buffer-provenance tag (no response buffer present). -/
def CIFS_NO_BUFFER : Nat := 0

def CIFS_MOUNT_NO_DFS : Nat := 0x8000000

def OPEN_REPARSE_POINT : Nat := 0x00200000

def SMB2_CREATE_IOV_SIZE : Nat := 8

/-! ## Data model -/

/-- The command argument of `smb2_compound_op` (`SMB2_OP_*`). -/
inductive Command
  | queryInfo
  | posixQueryInfo
  | delete
  | mkdir
  | rmdir
  | setEof
  | setInfo
  | rename
  | hardlink
deriving DecidableEq, Repr

/-- Number of operate (non-open, non-close) request slots the kind populates:
the switch cases of `smb2_compound_op` that call an encoder into
`rqst[num_rqst]`.  `SMB2_OP_DELETE` and `SMB2_OP_MKDIR` populate none. -/
def opArity : Command → Nat
  | .delete => 0
  | .mkdir => 0
  | _ => 1

/-- `rq_nvec` of the operate slot populated for the kind. -/
def opNvec : Command → Nat
  | .rename => 2
  | .hardlink => 2
  | _ => 1

inductive SlotTag
  | openReq
  | operateReq
  | closeReq
deriving DecidableEq, Repr

/-- A populated request slot: its role, `rq_nvec`, whether `smb2_set_related`
was applied to it and whether `smb2_set_next_command` was applied to it. -/
structure Slot where
  tag : SlotTag
  nvec : Nat
  related : Bool
  chainedNext : Bool
deriving DecidableEq, Repr

/-- The persistent/volatile identifier pair an encoder was invoked with. -/
structure EncFid where
  persistent_fid : Nat
  volatile_fid : Nat
deriving DecidableEq, Repr

/-- `struct cifsFileInfo` as consumed here: its fid pair and its
previously-resolved symlink target (NULL modelled as `none`). -/
structure CFile where
  persistent_fid : Nat
  volatile_fid : Nat
  symlink_target : Option String
deriving DecidableEq, Repr

/-- Fields of `struct smb2_hdr` read by the wrappers. -/
structure Hdr where
  Command : Nat
  Status : Nat
deriving DecidableEq, Repr

/-- One response buffer: the provenance tag (`resp_buftype` entry) and the
buffer contents abstracted to the header fields read later (`iov_base`,
NULL modelled as `none`). -/
structure RspBuf where
  buftype : Nat
  base : Option Hdr
deriving DecidableEq, Repr

/-- Zero-initialized response slot (`kzalloc` of `cop_vars` plus
`resp_buftype[i] = CIFS_NO_BUFFER`). -/
def RspBuf.empty : RspBuf := ⟨CIFS_NO_BUFFER, none⟩

/-- `struct cifs_open_info_data` as touched here: the copied attribute
payloads (abstracted to uninterpreted words) and the symlink target string. -/
structure OpenInfoData where
  fi : Nat
  posix_fi : Nat
  symlink_target : Option String
deriving DecidableEq, Repr

/-! ## Environment: outcomes of the external collaborators of one
`smb2_compound_op` call -/

structure CompoundEnv where
  /-- `cifs_convert_path_to_utf16` returns non-NULL. -/
  utf16_ok : Bool
  /-- result of `SMB2_open_init`. -/
  open_init_rc : Int
  /-- result of the operate encoder (`SMB2_query_info_init` /
  `SMB2_set_info_init`). -/
  op_init_rc : Int
  /-- result of `SMB2_close_init`. -/
  close_init_rc : Int
  /-- overall status returned by `compound_send_recv`. -/
  send_rc : Int
  /-- responses `compound_send_recv` writes into the sub-array it is handed
  (index relative to the start of that sub-array). -/
  send_rsp : Nat → RspBuf
  /-- `kstrdup` of `cfile->symlink_target` succeeds. -/
  kstrdup_ok : Bool
  /-- result of `smb2_validate_and_copy_iov` on the query response. -/
  validate_rc : Int
  /-- attribute payload copied out when validation succeeds. -/
  validate_fi : Nat

/-! ## Result of one `smb2_compound_op` call -/

structure CompoundOut where
  rc : Int
  /-- the three conceptual request slots (`vars->rqst`), `none` = never
  populated. -/
  slots : List (Option Slot)
  /-- final value of the `num_rqst` counter. -/
  num_rqst : Nat
  /-- `compound_send_recv` invocation as (request count, start slot index);
  `none` if the transport was never invoked. -/
  sendCall : Option (Nat × Nat)
  /-- fid pair the operate encoder was invoked with; `none` if no operate
  encoder ran. -/
  opEncFid : Option EncFid
  /-- `tcon->need_reconnect` after the call. -/
  need_reconnect : Bool
  /-- `cifsFileInfo_put(cfile)` was performed. -/
  cfilePut : Bool
  data : OpenInfoData
  /-- final contents of the three `rsp_iov`/`resp_buftype` pairs. -/
  rsp : List RspBuf
  /-- `some r` iff the `memcpy` into the caller's `err_iov`/`err_buftype`
  arrays happened, carrying what was copied; ownership transferred. -/
  errOut : Option (List RspBuf)
  /-- indices passed to `free_rsp_buf` on the response buffers. -/
  freedRsp : List Nat
deriving Repr

/-- State carried from the build/send phases to the `finished:` block. -/
structure BuildOut where
  rc : Int
  slots : List (Option Slot)
  num_rqst : Nat
  sendCall : Option (Nat × Nat)
  opEncFid : Option EncFid
  rsp : List RspBuf
deriving Repr

/-! ## The operation switch (lines 131-349) -/

/-- Outcome of the `switch (command)` operate-encoding step: the encoder's
return code, the populated operate slot (with its chaining marks) and the fid
pair the encoder received.  `SMB2_OP_QUERY_INFO`, `SMB2_OP_POSIX_QUERY_INFO`,
`SMB2_OP_SET_INFO` and `SMB2_OP_RENAME` branch on `cfile` and use its real
fids; `SMB2_OP_RMDIR`, `SMB2_OP_SET_EOF` and `SMB2_OP_HARDLINK` always encode
with `COMPOUND_FID` and always chain/relate on success; `SMB2_OP_DELETE` and
`SMB2_OP_MKDIR` encode nothing. -/
def opSwitchResult (command : Command) (cfile : Option CFile)
    (op_init_rc : Int) : Int × Option Slot × Option EncFid :=
  let cfileFid : Option CFile → EncFid := fun c =>
    match c with
    | some cf => ⟨cf.persistent_fid, cf.volatile_fid⟩
    | none => ⟨COMPOUND_FID, COMPOUND_FID⟩
  match command with
  | .queryInfo =>
      let mark := cfile.isNone && op_init_rc == 0
      (op_init_rc, some ⟨.operateReq, 1, mark, mark⟩, some (cfileFid cfile))
  | .posixQueryInfo =>
      let mark := cfile.isNone && op_init_rc == 0
      (op_init_rc, some ⟨.operateReq, 1, mark, mark⟩, some (cfileFid cfile))
  | .delete => (0, none, none)
  | .mkdir => (0, none, none)
  | .rmdir =>
      let mark := op_init_rc == 0
      (op_init_rc, some ⟨.operateReq, 1, mark, mark⟩,
       some ⟨COMPOUND_FID, COMPOUND_FID⟩)
  | .setEof =>
      let mark := op_init_rc == 0
      (op_init_rc, some ⟨.operateReq, 1, mark, mark⟩,
       some ⟨COMPOUND_FID, COMPOUND_FID⟩)
  | .setInfo =>
      let mark := cfile.isNone && op_init_rc == 0
      (op_init_rc, some ⟨.operateReq, 1, mark, mark⟩, some (cfileFid cfile))
  | .rename =>
      let mark := cfile.isNone && op_init_rc == 0
      (op_init_rc, some ⟨.operateReq, 2, mark, mark⟩, some (cfileFid cfile))
  | .hardlink =>
      let mark := op_init_rc == 0
      (op_init_rc, some ⟨.operateReq, 2, mark, mark⟩,
       some ⟨COMPOUND_FID, COMPOUND_FID⟩)

/-- Responses after `compound_send_recv` wrote `count` entries starting at
conceptual slot `start` (the remaining entries keep their zero
initialization). -/
def fillRsp (env : CompoundEnv) (count start : Nat) : List RspBuf :=
  (List.range 3).map fun i =>
    if start ≤ i && i < start + count then env.send_rsp (i - start)
    else RspBuf.empty

/-! ## Build and send phases (lines 83-378) -/

def rsp0 : List RspBuf := [RspBuf.empty, RspBuf.empty, RspBuf.empty]

/-- The phases from `after_open` on: operation switch, close phase and the
`compound_send_recv` invocation, with every `goto finished` modelled as an
early return of the state the `finished:` block receives.  `slot0` is the
Open slot populated by the caller of this helper (`none` when a cfile was
supplied). -/
def buildRest (env : CompoundEnv) (command : Command) (cfile : Option CFile)
    (slot0 : Option Slot) : BuildOut :=
  -- after_open: num_rqst++; rc = 0;  then the operation switch
  let sw := opSwitchResult command cfile env.op_init_rc
  let orc := sw.1
  let slot1 := sw.2.1
  let fid := sw.2.2
  if orc != 0 then
    ⟨orc, [slot0, slot1, none], 1, none, fid, rsp0⟩
  else
    let n1 := 1 + opArity command
    match cfile with
    | some _ =>
        -- close skipped; after_close: num_rqst++; send sub-range
        let num := n1 + 1
        let count := num - 2
        ⟨env.send_rc, [slot0, slot1, none], num, some (count, 1), fid,
         fillRsp env count 1⟩
    | none =>
        let closeSlot : Slot := ⟨.closeReq, 1, true, false⟩
        let slots :=
          if opArity command == 0 then [slot0, some closeSlot, none]
          else [slot0, slot1, some closeSlot]
        if env.close_init_rc != 0 then
          ⟨env.close_init_rc, slots, n1, none, fid, rsp0⟩
        else
          let num := n1 + 1
          ⟨env.send_rc, slots, num, some (num, 0), fid,
           fillRsp env num 0⟩

/-- Build and send: the Open phase (skipped when a cfile is supplied, with
the utf16 path conversion and `SMB2_open_init` failure exits), then
`buildRest`. -/
def buildAndSend (env : CompoundEnv) (command : Command)
    (cfile : Option CFile) : BuildOut :=
  match cfile with
  | some cf => buildRest env command (some cf) none
  | none =>
      if !env.utf16_ok then
        ⟨-ENOMEM, [none, none, none], 0, none, none, rsp0⟩
      else if env.open_init_rc != 0 then
        ⟨env.open_init_rc,
         [some ⟨.openReq, SMB2_CREATE_IOV_SIZE, false, false⟩, none, none],
         0, none, none, rsp0⟩
      else
        buildRest env command none
          (some ⟨.openReq, SMB2_CREATE_IOV_SIZE, false, true⟩)

/-! ## The `finished:` block (lines 380-507) -/

/-- Eager copy of `cfile->symlink_target` into the result for the two query
kinds (lines 393-397 / 419-423): only on success so far, and a `kstrdup`
failure turns the call into `-ENOMEM`. -/
def symlinkCopy (env : CompoundEnv) (cfile : Option CFile) (rc0 : Int)
    (dataIn : OpenInfoData) : Int × OpenInfoData :=
  if rc0 == 0 then
    match cfile with
    | some cf =>
        match cf.symlink_target with
        | some t =>
            if env.kstrdup_ok then (0, { dataIn with symlink_target := some t })
            else (-ENOMEM, dataIn)
        | none => (0, dataIn)
    | none => (0, dataIn)
  else (rc0, dataIn)

/-- The per-kind response-interpretation switch: for the query kinds the
symlink-target copy then `smb2_validate_and_copy_iov` of the operate
response; the other kinds only free encoder state (not tracked here). -/
def interpret (env : CompoundEnv) (command : Command) (cfile : Option CFile)
    (rc0 : Int) (dataIn : OpenInfoData) : Int × OpenInfoData :=
  match command with
  | .queryInfo =>
      let a := symlinkCopy env cfile rc0 dataIn
      if a.1 == 0 then
        if env.validate_rc == 0 then (0, { a.2 with fi := env.validate_fi })
        else (env.validate_rc, a.2)
      else a
  | .posixQueryInfo =>
      let a := symlinkCopy env cfile rc0 dataIn
      if a.1 == 0 then
        if env.validate_rc == 0 then
          (0, { a.2 with posix_fi := env.validate_fi })
        else (env.validate_rc, a.2)
      else a
  | _ => (rc0, dataIn)

/-- The `finished:` block: drop the cfile reference, set `need_reconnect` on
`-EREMCHG`, run the per-kind interpreter, then either hand the three response
buffers to the caller (when the final rc is nonzero and both diagnostics
arrays were supplied) or free all three. -/
def finishBlock (env : CompoundEnv) (command : Command) (cfile : Option CFile)
    (hasErrIov hasErrBuftype : Bool) (dataIn : OpenInfoData)
    (needReconnectIn : Bool) (b : BuildOut) : CompoundOut :=
  let needReconnect := if b.rc == -EREMCHG then true else needReconnectIn
  let r := interpret env command cfile b.rc dataIn
  let transfer := r.1 != 0 && hasErrIov && hasErrBuftype
  { rc := r.1
    slots := b.slots
    num_rqst := b.num_rqst
    sendCall := b.sendCall
    opEncFid := b.opEncFid
    need_reconnect := needReconnect
    cfilePut := cfile.isSome
    data := r.2
    rsp := b.rsp
    errOut := if transfer then some b.rsp else none
    freedRsp := if transfer then [] else [0, 1, 2] }

/-- `smb2_compound_op`: build the compound request, send it, interpret the
responses.  `hasErrIov`/`hasErrBuftype` model the `err_iov`/`err_buftype`
pointer arguments being non-NULL. -/
def smb2_compound_op (env : CompoundEnv) (command : Command)
    (cfile : Option CFile) (hasErrIov hasErrBuftype : Bool)
    (dataIn : OpenInfoData) (needReconnectIn : Bool) : CompoundOut :=
  finishBlock env command cfile hasErrIov hasErrBuftype dataIn needReconnectIn
    (buildAndSend env command cfile)

/-! ## Wrapper environment: collaborators of the two query-path wrappers and
`smb2_set_file_info` -/

structure PathEnv where
  /-- environment of the n-th `smb2_compound_op` invocation of this call. -/
  cenv : Nat → CompoundEnv
  /-- cfile produced by the n-th `cifs_get_readable_path` invocation,
  `none` = no readable handle found. -/
  get_readable_path : Nat → Option CFile
  /-- result of `open_cached_dir` for the root. -/
  open_cached_dir_rc : Int
  /-- `cfid->file_all_info_is_valid`. -/
  cfid_file_all_info_is_valid : Bool
  /-- `cfid->file_all_info` snapshot. -/
  cfid_file_all_info : Nat
  /-- result of the non-compound `SMB2_query_info` on the cached handle. -/
  smb2_query_info_rc : Int
  /-- attributes that query writes on success. -/
  smb2_query_info_fi : Nat
  /-- result of `smb2_parse_symlink_response`. -/
  parse_symlink_rc : Int
  /-- target string that parse writes on success. -/
  parse_symlink_target : String
  /-- `IS_ENABLED(CONFIG_CIFS_DFS_UPCALL)`. -/
  dfs_upcall_enabled : Bool
  /-- `cifs_sb` pointer is non-NULL. -/
  has_cifs_sb : Bool
  /-- `cifs_sb->mnt_cifs_flags`. -/
  mnt_cifs_flags : Nat

/-- One `smb2_compound_op` invocation as seen from a wrapper: the
`create_options` argument and whether the diagnostics arrays were passed. -/
structure WCall where
  create_options : Nat
  hasDiag : Bool
deriving DecidableEq, Repr

structure QueryPathOut where
  rc : Int
  data : OpenInfoData
  adjust_tz : Bool
  reparse : Bool
  /-- `smb2_compound_op` invocations, in order. -/
  compoundCalls : List WCall
  /-- non-compound `SMB2_query_info` invocations. -/
  queryInfoCalls : Nat
  /-- a cached root directory handle was obtained. -/
  cachedDirObtained : Bool
  /-- `close_cached_dir(cfid)` was performed. -/
  closedCachedDir : Bool
  need_reconnect : Bool
deriving Repr

/-! ## Retry-controller helpers of `smb2_query_path_info` (lines 543-577) -/

/-- The symlink-redirect test: `rc == -EOPNOTSUPP && hdr->Command ==
SMB2_CREATE && hdr->Status == STATUS_STOPPED_ON_SYMLINK`. -/
def symlinkCond (rc : Int) (hdr : Hdr) : Bool :=
  rc == -EOPNOTSUPP && hdr.Command == SMB2_CREATE
    && hdr.Status == STATUS_STOPPED_ON_SYMLINK

/-- First remap (lines 565-574): a non-`-EREMOTE` failure whose declared
status is `STATUS_OBJECT_NAME_INVALID` becomes `-EREMOTE` when DFS-referral
support is compiled in. -/
def nameInvalidRemap (env : PathEnv) (rc : Int) (hdr : Hdr) : Int :=
  if rc != -EREMOTE && env.dfs_upcall_enabled
      && hdr.Status == STATUS_OBJECT_NAME_INVALID then -EREMOTE
  else rc

/-- Second remap (lines 575-577): `-EREMOTE` becomes `-EOPNOTSUPP` when DFS
support is compiled in, `cifs_sb` is non-NULL and the mount carries
`CIFS_MOUNT_NO_DFS`. -/
def noDfsRemap (env : PathEnv) (rc : Int) : Int :=
  if rc == -EREMOTE && env.dfs_upcall_enabled && env.has_cifs_sb
      && Nat.land env.mnt_cifs_flags CIFS_MOUNT_NO_DFS != 0 then -EOPNOTSUPP
  else rc

/-- The first compound call of `smb2_query_path_info` (lines 539-542):
QueryInfo with both diagnostics arrays supplied. -/
def qpOut0 (env : PathEnv) (dataIn : OpenInfoData) (nrIn : Bool) :
    CompoundOut :=
  smb2_compound_op (env.cenv 0) .queryInfo (env.get_readable_path 0)
    true true dataIn nrIn

/-- `err_iov[0]`/`err_buftype[0]` as the wrapper sees them after the first
call: the transferred buffer when the memcpy happened, else the zero
initialization. -/
def qpErr0 (env : PathEnv) (dataIn : OpenInfoData) (nrIn : Bool) : RspBuf :=
  ((qpOut0 env dataIn nrIn).errOut.getD rsp0).getD 0 RspBuf.empty

/-- The symlink retry of `smb2_query_path_info` (lines 558-563): same
QueryInfo with `create_options |= OPEN_REPARSE_POINT`, the parsed symlink
target already in the result, and no diagnostics arrays. -/
def qpRetry (env : PathEnv) (dataIn : OpenInfoData) (nrIn : Bool) :
    CompoundOut :=
  smb2_compound_op (env.cenv 1) .queryInfo (env.get_readable_path 1)
    false false
    { (qpOut0 env dataIn nrIn).data with
        symlink_target := some env.parse_symlink_target }
    (qpOut0 env dataIn nrIn).need_reconnect

/-- The non-cached path of `smb2_query_path_info` (lines 539-584): first
compound QueryInfo with diagnostics requested, then the reparse/referral
retry controller. -/
def queryPathCompound (env : PathEnv) (dataIn : OpenInfoData)
    (nrIn : Bool) : QueryPathOut :=
  let out0 := qpOut0 env dataIn nrIn
  let call0 : WCall := ⟨0, true⟩
  let e0 := qpErr0 env dataIn nrIn
  let base : QueryPathOut :=
    { rc := out0.rc, data := out0.data, adjust_tz := false, reparse := false
      compoundCalls := [call0], queryInfoCalls := 0
      cachedDirObtained := false, closedCachedDir := false
      need_reconnect := out0.need_reconnect }
  if out0.rc != 0 then
    match e0.base with
    | none => base
    | some hdr =>
        if e0.buftype == CIFS_NO_BUFFER then base
        else if symlinkCond out0.rc hdr then
          if env.parse_symlink_rc != 0 then
            { base with rc := env.parse_symlink_rc }
          else
            let out1 := qpRetry env dataIn nrIn
            { rc := out1.rc, data := out1.data, adjust_tz := false
              reparse := true
              compoundCalls := [call0, ⟨Nat.lor 0 OPEN_REPARSE_POINT, false⟩]
              queryInfoCalls := 0
              cachedDirObtained := false, closedCachedDir := false
              need_reconnect := out1.need_reconnect }
        else
          { base with rc := noDfsRemap env (nameInvalidRemap env out0.rc hdr) }
  else base

/-- `smb2_query_path_info` (lines 509-585): cached root-handle shortcut for
the empty path, else the compound path with the retry controller. -/
def smb2_query_path_info (env : PathEnv) (full_path : String)
    (dataIn : OpenInfoData) (nrIn : Bool) : QueryPathOut :=
  let rc0 : Int :=
    if full_path == "" then env.open_cached_dir_rc else -ENOENT
  if rc0 == 0 then
    if env.cfid_file_all_info_is_valid then
      { rc := 0, data := { dataIn with fi := env.cfid_file_all_info }
        adjust_tz := false, reparse := false
        compoundCalls := [], queryInfoCalls := 0
        cachedDirObtained := true, closedCachedDir := true
        need_reconnect := nrIn }
    else
      { rc := env.smb2_query_info_rc
        data :=
          if env.smb2_query_info_rc == 0 then
            { dataIn with fi := env.smb2_query_info_fi }
          else dataIn
        adjust_tz := false, reparse := false
        compoundCalls := [], queryInfoCalls := 1
        cachedDirObtained := true, closedCachedDir := true
        need_reconnect := nrIn }
  else queryPathCompound env dataIn nrIn

/-- The symlink-header test of `smb311_posix_query_path_info` (lines
614-616): a raw open-phase response is present and declares the creation
command stopped on a symlink. -/
def posixSymlinkHdr (e0 : RspBuf) : Bool :=
  match e0.base with
  | none => false
  | some hdr =>
      e0.buftype != CIFS_NO_BUFFER && hdr.Command == SMB2_CREATE
        && hdr.Status == STATUS_STOPPED_ON_SYMLINK

/-- `smb311_posix_query_path_info` (lines 588-636): compound PosixQueryInfo
with diagnostics, then on `-EOPNOTSUPP` the symlink retry — a parse failure
on a recognized symlink response aborts, otherwise the retry is issued with
reparse-point creation options and no diagnostics. -/
def pqOut0 (env : PathEnv) (dataIn : OpenInfoData) (nrIn : Bool) :
    CompoundOut :=
  smb2_compound_op (env.cenv 0) .posixQueryInfo (env.get_readable_path 0)
    true true dataIn nrIn

def pqErr0 (env : PathEnv) (dataIn : OpenInfoData) (nrIn : Bool) : RspBuf :=
  ((pqOut0 env dataIn nrIn).errOut.getD rsp0).getD 0 RspBuf.empty

/-- Result structure fed to the posix retry: the symlink target is present
only when the open response declared the symlink stop (and parsing
succeeded, which the caller of this definition has checked). -/
def pqRetryData (env : PathEnv) (dataIn : OpenInfoData) (nrIn : Bool) :
    OpenInfoData :=
  if posixSymlinkHdr (pqErr0 env dataIn nrIn) then
    { (pqOut0 env dataIn nrIn).data with
        symlink_target := some env.parse_symlink_target }
  else (pqOut0 env dataIn nrIn).data

/-- The symlink retry of `smb311_posix_query_path_info` (lines 624-628). -/
def pqRetry (env : PathEnv) (dataIn : OpenInfoData) (nrIn : Bool) :
    CompoundOut :=
  smb2_compound_op (env.cenv 1) .posixQueryInfo (env.get_readable_path 1)
    false false (pqRetryData env dataIn nrIn)
    (pqOut0 env dataIn nrIn).need_reconnect

def smb311_posix_query_path_info (env : PathEnv) (dataIn : OpenInfoData)
    (nrIn : Bool) : QueryPathOut :=
  let out0 := pqOut0 env dataIn nrIn
  let call0 : WCall := ⟨0, true⟩
  let e0 := pqErr0 env dataIn nrIn
  let base : QueryPathOut :=
    { rc := out0.rc, data := out0.data, adjust_tz := false, reparse := false
      compoundCalls := [call0], queryInfoCalls := 0
      cachedDirObtained := false, closedCachedDir := false
      need_reconnect := out0.need_reconnect }
  if out0.rc == -EOPNOTSUPP then
    if posixSymlinkHdr e0 && env.parse_symlink_rc != 0 then
      { base with rc := env.parse_symlink_rc }
    else
      let out1 := pqRetry env dataIn nrIn
      { rc := out1.rc, data := out1.data, adjust_tz := false
        reparse := true
        compoundCalls := [call0, ⟨Nat.lor 0 OPEN_REPARSE_POINT, false⟩]
        queryInfoCalls := 0
        cachedDirObtained := false, closedCachedDir := false
        need_reconnect := out1.need_reconnect }
  else base

/-! ## `smb2_set_file_info` (lines 752-779) -/

/-- The `FILE_BASIC_INFO` argument of `smb2_set_file_info` (wire integer
fields abstracted to naturals). -/
structure FILE_BASIC_INFO where
  CreationTime : Nat
  LastAccessTime : Nat
  LastWriteTime : Nat
  ChangeTime : Nat
  Attributes : Nat
deriving DecidableEq, Repr

structure SetInfoEnv where
  /-- `cifs_sb_tlink` failure: `some e` models `IS_ERR(tlink)` with
  `PTR_ERR(tlink) = e`. -/
  tlink_err : Option Int
  /-- cfile produced by `cifs_get_writable_path`. -/
  get_writable_path : Option CFile
  cenv : CompoundEnv

structure SetInfoOut where
  rc : Int
  compoundCalls : Nat
  tlink_acquired : Bool
  tlink_put : Bool
  need_reconnect : Bool
deriving Repr

/-- `smb2_set_file_info`: all-zero basic attributes short-circuit to success
with no work; otherwise acquire the tlink and run a compound
`SMB2_OP_SET_INFO`. -/
def smb2_set_file_info (env : SetInfoEnv) (buf : FILE_BASIC_INFO)
    (nrIn : Bool) : SetInfoOut :=
  if buf.CreationTime == 0 && buf.LastAccessTime == 0
      && buf.LastWriteTime == 0 && buf.ChangeTime == 0
      && buf.Attributes == 0 then
    { rc := 0, compoundCalls := 0, tlink_acquired := false
      tlink_put := false, need_reconnect := nrIn }
  else
    match env.tlink_err with
    | some e =>
        { rc := e, compoundCalls := 0, tlink_acquired := true
          tlink_put := false, need_reconnect := nrIn }
    | none =>
        let out := smb2_compound_op env.cenv .setInfo env.get_writable_path
          false false ⟨0, 0, none⟩ nrIn
        { rc := out.rc, compoundCalls := 1, tlink_acquired := true
          tlink_put := true, need_reconnect := out.need_reconnect }

/-! ## Shared concrete instantiations (used by witnesses and
counterexamples) -/

/-- An environment in which every collaborator succeeds. -/
def envW : CompoundEnv :=
  { utf16_ok := true, open_init_rc := 0, op_init_rc := 0, close_init_rc := 0
    send_rc := 0, send_rsp := fun _ => RspBuf.empty, kstrdup_ok := true
    validate_rc := 0, validate_fi := 7 }

def cfW : CFile := ⟨11, 22, none⟩

def dataW : OpenInfoData := ⟨0, 0, none⟩

/-- An open-phase response declaring the creation command stopped on a
symlink, with a transport-owned provenance tag. -/
def symlinkRsp : RspBuf :=
  ⟨1, some ⟨SMB2_CREATE, STATUS_STOPPED_ON_SYMLINK⟩⟩

/-- All encoders succeed, the transport fails with `-EOPNOTSUPP` and its
first response declares the symlink stop. -/
def cenvSymlink : CompoundEnv :=
  { envW with send_rc := -EOPNOTSUPP
              send_rsp := fun i => if i == 0 then symlinkRsp else RspBuf.empty }

/-- A path-wrapper environment whose every compound call behaves like
`cenvSymlink`, with no cached root handle and no readable cfile. -/
def basePathEnv : PathEnv :=
  { cenv := fun _ => cenvSymlink
    get_readable_path := fun _ => none
    open_cached_dir_rc := -ENOENT
    cfid_file_all_info_is_valid := false
    cfid_file_all_info := 0
    smb2_query_info_rc := 0
    smb2_query_info_fi := 0
    parse_symlink_rc := 0
    parse_symlink_target := "tgt"
    dfs_upcall_enabled := true
    has_cifs_sb := true
    mnt_cifs_flags := 0 }

/-- A first response carrying an ordinary (non-create, non-symlink) header. -/
def plainRsp : RspBuf := ⟨1, some ⟨16, 0⟩⟩

/-- All encoders succeed, the transport fails with `-EREMOTE`. -/
def cenvRemote : CompoundEnv :=
  { envW with send_rc := -EREMOTE
              send_rsp := fun i => if i == 0 then plainRsp else RspBuf.empty }

/-! ## Theorems -/

/-- C1: for every operation kind and every outcome of `smb2_compound_op`,
the three response buffers are released exactly once: when the final return
code is nonzero and both diagnostics arrays were supplied, all three buffers
with their provenance tags are copied out verbatim to the caller and none is
freed locally; in every other case no transfer happens and exactly the three
buffers are freed locally. -/
theorem claim1_response_buffers_released_once (env : CompoundEnv)
    (c : Command) (cf : Option CFile) (hI hB : Bool) (d : OpenInfoData)
    (nr : Bool) :
    (smb2_compound_op env c cf hI hB d nr).errOut
        = (if (smb2_compound_op env c cf hI hB d nr).rc != 0 && hI && hB
           then some (smb2_compound_op env c cf hI hB d nr).rsp else none)
      ∧ (smb2_compound_op env c cf hI hB d nr).freedRsp
        = (if (smb2_compound_op env c cf hI hB d nr).rc != 0 && hI && hB
           then [] else [0, 1, 2]) :=
  ⟨rfl, rfl⟩

/-- The transport was invoked only on the two send branches, where the rc
reaching the `finished:` block is `compound_send_recv`'s result. -/
theorem buildRest_rc_of_sendCall (env : CompoundEnv) (c : Command)
    (cf : Option CFile) (s0 : Option Slot)
    (h : (buildRest env c cf s0).sendCall.isSome = true) :
    (buildRest env c cf s0).rc = env.send_rc := by
  cases cf <;> cases c <;>
    simp only [buildRest, opSwitchResult, opArity] at h ⊢ <;>
    split at h <;> (try split at h) <;> simp_all

theorem buildAndSend_rc_of_sendCall (env : CompoundEnv) (c : Command)
    (cf : Option CFile) (h : (buildAndSend env c cf).sendCall.isSome = true) :
    (buildAndSend env c cf).rc = env.send_rc := by
  cases cf with
  | some cf => exact buildRest_rc_of_sendCall env c (some cf) none h
  | none =>
      by_cases h1 : env.utf16_ok
      · by_cases h2 : env.open_init_rc = 0
        · have heq : buildAndSend env c none
              = buildRest env c none
                  (some ⟨.openReq, SMB2_CREATE_IOV_SIZE, false, true⟩) := by
            simp [buildAndSend, h1, h2]
          rw [heq] at h ⊢
          exact buildRest_rc_of_sendCall env c none _ h
        · simp [buildAndSend, h1, h2] at h
      · simp [buildAndSend, h1] at h

/-- C9: whenever the transaction executor reports `-EREMCHG`,
`smb2_compound_op` sets the connection's `need_reconnect` flag before
returning, for every operation kind and whether or not the caller requested
diagnostics. -/
theorem claim9_remchg_sets_need_reconnect (env : CompoundEnv) (c : Command)
    (cf : Option CFile) (hI hB : Bool) (d : OpenInfoData) (nr : Bool)
    (hsent : (smb2_compound_op env c cf hI hB d nr).sendCall.isSome = true)
    (hrc : env.send_rc = -EREMCHG) :
    (smb2_compound_op env c cf hI hB d nr).need_reconnect = true := by
  have hb : (buildAndSend env c cf).rc = env.send_rc :=
    buildAndSend_rc_of_sendCall env c cf hsent
  show (finishBlock env c cf hI hB d nr (buildAndSend env c cf)).need_reconnect
    = true
  simp [finishBlock, hb, hrc]

/-- C9 witness: a concrete all-success Delete call whose transport reports
`-EREMCHG` ends with the reconnect flag set. -/
theorem claim9_witness :
    ({ envW with send_rc := -EREMCHG } : CompoundEnv).send_rc = -EREMCHG
      ∧ (smb2_compound_op { envW with send_rc := -EREMCHG } .delete none
          true true dataW false).sendCall.isSome = true
      ∧ (smb2_compound_op { envW with send_rc := -EREMCHG } .delete none
          true true dataW false).need_reconnect = true :=
  ⟨rfl, by decide,
   claim9_remchg_sets_need_reconnect _ _ _ _ _ _ _ (by decide) rfl⟩

/-- C2: with no caller handle and every encoder succeeding, the populated
slots are an Open request in slot 0, the kind's own request slot(s) (none
for Delete and Mkdir, one for every other kind), then a Close request, in
that order; every populated slot after the first is marked related and the
populated slot count is 2 plus the kind's arity. -/
theorem claim2_compound_layout_no_handle (env : CompoundEnv) (c : Command)
    (hI hB : Bool) (d : OpenInfoData) (nr : Bool) (out : CompoundOut)
    (hout : out = smb2_compound_op env c none hI hB d nr)
    (h1 : env.utf16_ok = true) (h2 : env.open_init_rc = 0)
    (h3 : env.op_init_rc = 0) (h4 : env.close_init_rc = 0) :
    (out.slots.reduceOption.map (fun s => (s.tag, s.related))
        = if opArity c = 0 then
            [(SlotTag.openReq, false), (SlotTag.closeReq, true)]
          else
            [(SlotTag.openReq, false), (SlotTag.operateReq, true),
             (SlotTag.closeReq, true)])
      ∧ out.slots.reduceOption.length = 2 + opArity c := by
  subst hout
  cases c <;>
    simp [smb2_compound_op, finishBlock, buildAndSend, buildRest,
      opSwitchResult, opArity, h1, h2, h3, h4]

/-- C2 witness: a concrete all-success Rename build (arity 1) and a
concrete all-success Mkdir build (arity 0). -/
theorem claim2_witness :
    ((smb2_compound_op envW .rename none true true dataW
          false).slots.reduceOption.map (fun s => (s.tag, s.related))
        = [(SlotTag.openReq, false), (SlotTag.operateReq, true),
           (SlotTag.closeReq, true)])
      ∧ (smb2_compound_op envW .rename none true true
          dataW false).slots.reduceOption.length = 2 + opArity .rename
      ∧ ((smb2_compound_op envW .mkdir none true true dataW
          false).slots.reduceOption.map (fun s => (s.tag, s.related))
        = [(SlotTag.openReq, false), (SlotTag.closeReq, true)]) := by
  refine ⟨?_, ?_, ?_⟩
  · exact (claim2_compound_layout_no_handle envW .rename true true dataW
      false _ rfl rfl rfl rfl rfl).1
  · exact (claim2_compound_layout_no_handle envW .rename true true dataW
      false _ rfl rfl rfl rfl rfl).2
  · exact (claim2_compound_layout_no_handle envW .mkdir true true dataW
      false _ rfl rfl rfl rfl rfl).1

/-- C4: when a caller handle is supplied, no Open slot and no Close slot is
populated, only the kind's own operate slot(s) exist, and the executor is
invoked with `num_rqst - 2` requests starting at conceptual slot 1 — the
kind's arity. -/
theorem claim4_handle_supplied_subrange (env : CompoundEnv) (c : Command)
    (cf : CFile) (hI hB : Bool) (d : OpenInfoData) (nr : Bool)
    (out : CompoundOut)
    (hout : out = smb2_compound_op env c (some cf) hI hB d nr)
    (h3 : env.op_init_rc = 0) :
    out.slots.getD 0 none = none
      ∧ out.slots.getD 2 none = none
      ∧ (out.slots.reduceOption.map Slot.tag
          = if opArity c = 0 then [] else [SlotTag.operateReq])
      ∧ out.num_rqst = 2 + opArity c
      ∧ out.sendCall = some (out.num_rqst - 2, 1)
      ∧ out.num_rqst - 2 = opArity c := by
  subst hout
  cases c <;>
    simp [smb2_compound_op, finishBlock, buildAndSend, buildRest,
      opSwitchResult, opArity, h3]

/-- C4 witness: a concrete SetInfo call on a supplied handle sends exactly
one request, starting at conceptual slot 1. -/
theorem claim4_witness :
    (smb2_compound_op envW .setInfo (some cfW) false false dataW
        false).slots.getD 0 none = none
      ∧ (smb2_compound_op envW .setInfo (some cfW) false false dataW
          false).slots.getD 2 none = none
      ∧ (smb2_compound_op envW .setInfo (some cfW) false false dataW
          false).sendCall = some (1, 1) := by
  have h := claim4_handle_supplied_subrange envW .setInfo cfW false false
    dataW false _ rfl rfl
  exact ⟨h.1, h.2.1, by rw [h.2.2.2.2.1, h.2.2.2.1]; rfl⟩

/-- The kinds whose operate-encoding branch consults the supplied cfile:
`SMB2_OP_QUERY_INFO`, `SMB2_OP_POSIX_QUERY_INFO`, `SMB2_OP_SET_INFO` and
`SMB2_OP_RENAME` (lines 136, 170, 254, 296).  `SMB2_OP_RMDIR`,
`SMB2_OP_SET_EOF` and `SMB2_OP_HARDLINK` always encode against
`COMPOUND_FID`. -/
def usesCallerFid : Command → Bool
  | .queryInfo => true
  | .posixQueryInfo => true
  | .setInfo => true
  | .rename => true
  | _ => false

/-- C5 counterexample: a SetEndOfFile operation (arity 1) with a caller
handle supplied still invokes the encoder with the
`(COMPOUND_FID, COMPOUND_FID)` placeholder and not with the caller's real
fids, refuting the claim for this kind. -/
theorem claim5_counterexample :
    opArity .setEof = 1
      ∧ (smb2_compound_op envW .setEof (some cfW) false false dataW
          false).opEncFid = some ⟨COMPOUND_FID, COMPOUND_FID⟩
      ∧ (smb2_compound_op envW .setEof (some cfW) false false dataW
          false).opEncFid ≠ some ⟨cfW.persistent_fid, cfW.volatile_fid⟩ := by
  decide

/-- C5 amended: with a caller handle supplied, the encoders of QueryInfo,
PosixQueryInfo, SetInfo and Rename receive the caller's real identifiers,
while Rmdir, SetEndOfFile and Hardlink still receive the
`(COMPOUND_FID, COMPOUND_FID)` placeholder; when the transaction owns its
own Open step, every arity-1 kind's encoder receives the placeholder. -/
theorem claim5_amended_encoder_fids (env : CompoundEnv) (c : Command)
    (cf : CFile) (hI hB : Bool) (d : OpenInfoData) (nr : Bool)
    (outH outN : CompoundOut)
    (hH : outH = smb2_compound_op env c (some cf) hI hB d nr)
    (hN : outN = smb2_compound_op env c none hI hB d nr)
    (h1 : env.utf16_ok = true) (h2 : env.open_init_rc = 0) :
    (outH.opEncFid
        = if opArity c = 0 then none
          else if usesCallerFid c then
            some ⟨cf.persistent_fid, cf.volatile_fid⟩
          else some ⟨COMPOUND_FID, COMPOUND_FID⟩)
      ∧ (outN.opEncFid
        = if opArity c = 0 then none
          else some ⟨COMPOUND_FID, COMPOUND_FID⟩) := by
  subst hH; subst hN
  cases c <;>
    simp [smb2_compound_op, finishBlock, buildAndSend, buildRest,
      opSwitchResult, opArity, usesCallerFid, h1, h2] <;>
    split_ifs <;> simp_all

/-- C5 amended witness: concrete SetInfo calls with and without a caller
handle. -/
theorem claim5_witness :
    (smb2_compound_op envW .setInfo (some cfW) false false dataW
        false).opEncFid = some ⟨cfW.persistent_fid, cfW.volatile_fid⟩
      ∧ (smb2_compound_op envW .setInfo none false false dataW
          false).opEncFid = some ⟨COMPOUND_FID, COMPOUND_FID⟩ := by
  have h := claim5_amended_encoder_fids envW .setInfo cfW false false dataW
    false _ _ rfl rfl rfl rfl
  exact ⟨h.1, h.2⟩

/-- Every branch of `smb2_query_path_info` issues zero, one or two compound
calls: the retry state machine is structurally bounded. -/
theorem query_path_calls_le_two (env : PathEnv) (p : String)
    (d : OpenInfoData) (n : Bool) :
    (smb2_query_path_info env p d n).compoundCalls.length ≤ 2 := by
  simp only [smb2_query_path_info, queryPathCompound]
  cases hb : (qpErr0 env d n).base <;> simp only [hb] <;>
    (repeat' split) <;> simp

/-- A non-root path skips the cached-directory shortcut entirely. -/
theorem query_path_ne_root (env : PathEnv) (p : String) (d : OpenInfoData)
    (n : Bool) (hp : p ≠ "") :
    smb2_query_path_info env p d n = queryPathCompound env d n := by
  unfold smb2_query_path_info
  simp [hp, ENOENT]

/-- C3: if the first QueryInfo compound call fails with `-EOPNOTSUPP` and
the transferred open-phase response declares command = create and status =
stopped-on-symlink, and symlink parsing succeeds, then `reparse` is set,
exactly one retry is issued — with `OPEN_REPARSE_POINT` added to the
creation options, the parsed target in its input data, and no diagnostics
requested — the retry's rc and data are returned verbatim whatever they
are, and no call of this wrapper ever issues more than two compound
calls. -/
theorem claim3_query_symlink_retry_once (env : PathEnv) (full_path : String)
    (dataIn : OpenInfoData) (nrIn : Bool)
    (hpath : full_path ≠ "")
    (hrc : (qpOut0 env dataIn nrIn).rc = -EOPNOTSUPP)
    (hhdr : (qpErr0 env dataIn nrIn).base
      = some ⟨SMB2_CREATE, STATUS_STOPPED_ON_SYMLINK⟩)
    (hbt : (qpErr0 env dataIn nrIn).buftype ≠ CIFS_NO_BUFFER)
    (hparse : env.parse_symlink_rc = 0) :
    (smb2_query_path_info env full_path dataIn nrIn).reparse = true
      ∧ (smb2_query_path_info env full_path dataIn nrIn).compoundCalls
        = [⟨0, true⟩, ⟨OPEN_REPARSE_POINT, false⟩]
      ∧ (smb2_query_path_info env full_path dataIn nrIn).rc
        = (qpRetry env dataIn nrIn).rc
      ∧ (smb2_query_path_info env full_path dataIn nrIn).data
        = (qpRetry env dataIn nrIn).data
      ∧ qpRetry env dataIn nrIn
        = smb2_compound_op (env.cenv 1) .queryInfo (env.get_readable_path 1)
            false false
            { (qpOut0 env dataIn nrIn).data with
                symlink_target := some env.parse_symlink_target }
            (qpOut0 env dataIn nrIn).need_reconnect
      ∧ ∀ (env2 : PathEnv) (p2 : String) (d2 : OpenInfoData) (n2 : Bool),
          (smb2_query_path_info env2 p2 d2 n2).compoundCalls.length ≤ 2 := by
  have hbt2 : ((qpErr0 env dataIn nrIn).buftype == CIFS_NO_BUFFER) = false :=
    beq_eq_false_iff_ne.mpr hbt
  have hres : smb2_query_path_info env full_path dataIn nrIn
      = { rc := (qpRetry env dataIn nrIn).rc
          data := (qpRetry env dataIn nrIn).data
          adjust_tz := false, reparse := true
          compoundCalls := [⟨0, true⟩, ⟨Nat.lor 0 OPEN_REPARSE_POINT, false⟩]
          queryInfoCalls := 0
          cachedDirObtained := false, closedCachedDir := false
          need_reconnect := (qpRetry env dataIn nrIn).need_reconnect } := by
    rw [query_path_ne_root env full_path dataIn nrIn hpath]
    simp only [queryPathCompound]
    rw [hhdr]
    simp [hrc, hbt2, hparse, symlinkCond, EOPNOTSUPP, SMB2_CREATE,
      STATUS_STOPPED_ON_SYMLINK]
  rw [hres]
  exact ⟨rfl, rfl, rfl, rfl, rfl, query_path_calls_le_two⟩

/-- C3 witness: a concrete environment whose first QueryInfo call fails
with `-EOPNOTSUPP` and a symlink-stop creation response, and whose parse
succeeds: the wrapper retries exactly once with reparse-point options. -/
theorem claim3_witness :
    (qpOut0 basePathEnv dataW false).rc = -EOPNOTSUPP
      ∧ (qpErr0 basePathEnv dataW false).base
        = some ⟨SMB2_CREATE, STATUS_STOPPED_ON_SYMLINK⟩
      ∧ (smb2_query_path_info basePathEnv "a" dataW false).reparse = true
      ∧ (smb2_query_path_info basePathEnv "a" dataW false).compoundCalls
        = [⟨0, true⟩, ⟨OPEN_REPARSE_POINT, false⟩] := by
  have h := claim3_query_symlink_retry_once basePathEnv "a" dataW false
    (by decide) (by decide) (by decide) (by decide) (by decide)
  exact ⟨by decide, by decide, h.1, h.2.1⟩

/-- C8: QueryInfo on the empty path with a cached root handle whose
snapshot is valid copies the snapshot into the result with no compound
transaction and no network query, and every path that obtained the cached
handle releases it before returning. -/
theorem claim8_cached_handle_shortcut (env : PathEnv) (dataIn : OpenInfoData)
    (nrIn : Bool) (hcd : env.open_cached_dir_rc = 0)
    (hvalid : env.cfid_file_all_info_is_valid = true) :
    (smb2_query_path_info env "" dataIn nrIn).rc = 0
      ∧ (smb2_query_path_info env "" dataIn nrIn).data.fi
        = env.cfid_file_all_info
      ∧ (smb2_query_path_info env "" dataIn nrIn).compoundCalls = []
      ∧ (smb2_query_path_info env "" dataIn nrIn).queryInfoCalls = 0
      ∧ (smb2_query_path_info env "" dataIn nrIn).cachedDirObtained = true
      ∧ (smb2_query_path_info env "" dataIn nrIn).closedCachedDir = true
      ∧ ∀ (env2 : PathEnv) (d2 : OpenInfoData) (n2 : Bool),
          env2.open_cached_dir_rc = 0 →
          (smb2_query_path_info env2 "" d2 n2).closedCachedDir = true := by
  refine ⟨?_, ?_, ?_, ?_, ?_, ?_, fun env2 d2 n2 h2 => ?_⟩
  · simp [smb2_query_path_info, hcd, hvalid]
  · simp [smb2_query_path_info, hcd, hvalid]
  · simp [smb2_query_path_info, hcd, hvalid]
  · simp [smb2_query_path_info, hcd, hvalid]
  · simp [smb2_query_path_info, hcd, hvalid]
  · simp [smb2_query_path_info, hcd, hvalid]
  · cases hv : env2.cfid_file_all_info_is_valid <;>
      simp [smb2_query_path_info, h2, hv]

def envC8 : PathEnv :=
  { basePathEnv with open_cached_dir_rc := 0
                     cfid_file_all_info_is_valid := true
                     cfid_file_all_info := 99 }

/-- C8 witness: a concrete valid cached snapshot is returned with zero
compound and zero non-compound calls. -/
theorem claim8_witness :
    envC8.open_cached_dir_rc = 0
      ∧ (smb2_query_path_info envC8 "" dataW false).rc = 0
      ∧ (smb2_query_path_info envC8 "" dataW false).data.fi = 99
      ∧ (smb2_query_path_info envC8 "" dataW false).compoundCalls = []
      ∧ (smb2_query_path_info envC8 "" dataW false).queryInfoCalls = 0
      ∧ (smb2_query_path_info envC8 "" dataW false).closedCachedDir = true := by
  have h := claim8_cached_handle_shortcut envC8 dataW false rfl rfl
  exact ⟨rfl, h.1, h.2.1, h.2.2.1, h.2.2.2.1, h.2.2.2.2.2.1⟩

def envC7 : PathEnv :=
  { basePathEnv with dfs_upcall_enabled := false
                     cenv := fun _ => cenvRemote }

/-- C7 counterexample: with DFS-referral support compiled out and the first
QueryInfo call failing `-EREMOTE`, the error is returned as `-EREMOTE`, not
remapped to `-EOPNOTSUPP` — the remap requires DFS support to be compiled
in, refuting the "compiled out or administratively disabled" claim. -/
theorem claim7_counterexample :
    envC7.dfs_upcall_enabled = false
      ∧ (smb2_query_path_info envC7 "a" dataW false).rc = -EREMOTE
      ∧ (smb2_query_path_info envC7 "a" dataW false).rc ≠ -EOPNOTSUPP := by
  decide

/-- C7 amended: off the symlink branch, when the possibly-remapped failure
is `-EREMOTE`, DFS support is compiled IN, `cifs_sb` is non-NULL and the
mount carries `CIFS_MOUNT_NO_DFS`, the returned error is remapped to
`-EOPNOTSUPP`. -/
theorem claim7_amended_no_dfs_remap (env : PathEnv) (full_path : String)
    (dataIn : OpenInfoData) (nrIn : Bool) (hdrv : Hdr)
    (hpath : full_path ≠ "")
    (hrc0 : (qpOut0 env dataIn nrIn).rc ≠ 0)
    (hhdr : (qpErr0 env dataIn nrIn).base = some hdrv)
    (hbt : (qpErr0 env dataIn nrIn).buftype ≠ CIFS_NO_BUFFER)
    (hsl : symlinkCond (qpOut0 env dataIn nrIn).rc hdrv = false)
    (hrem : nameInvalidRemap env (qpOut0 env dataIn nrIn).rc hdrv = -EREMOTE)
    (hdfs : env.dfs_upcall_enabled = true)
    (hsb : env.has_cifs_sb = true)
    (hflag : Nat.land env.mnt_cifs_flags CIFS_MOUNT_NO_DFS ≠ 0) :
    (smb2_query_path_info env full_path dataIn nrIn).rc = -EOPNOTSUPP := by
  have hbt2 : ((qpErr0 env dataIn nrIn).buftype == CIFS_NO_BUFFER) = false :=
    beq_eq_false_iff_ne.mpr hbt
  rw [query_path_ne_root env full_path dataIn nrIn hpath]
  simp only [queryPathCompound]
  rw [hhdr]
  simp [hrc0, hbt2, hsl, hrem, noDfsRemap, hdfs, hsb, hflag]

def envC7W : PathEnv :=
  { basePathEnv with cenv := fun _ => cenvRemote
                     mnt_cifs_flags := CIFS_MOUNT_NO_DFS }

/-- C7 amended witness: DFS compiled in and mount-disabled, first call
failing `-EREMOTE` with an ordinary response header, remapped to
`-EOPNOTSUPP`. -/
theorem claim7_witness :
    Nat.land envC7W.mnt_cifs_flags CIFS_MOUNT_NO_DFS ≠ 0
      ∧ (smb2_query_path_info envC7W "a" dataW false).rc = -EOPNOTSUPP :=
  ⟨by decide,
   claim7_amended_no_dfs_remap envC7W "a" dataW false ⟨16, 0⟩ (by decide)
     (by decide) (by decide) (by decide) (by decide) (by decide) rfl rfl
     (by decide)⟩

def envC6 : PathEnv := { basePathEnv with parse_symlink_rc := -ENOMEM }

/-- C6 counterexample: the first PosixQueryInfo call fails `-EOPNOTSUPP`
with a recognized symlink-stop creation response, but symlink parsing
fails: the wrapper returns the parse error with `reparse` still false and
no retry issued — refuting "unconditionally set true and retry even when
recovery failed". -/
theorem claim6_counterexample :
    (pqOut0 envC6 dataW false).rc = -EOPNOTSUPP
      ∧ posixSymlinkHdr (pqErr0 envC6 dataW false) = true
      ∧ envC6.parse_symlink_rc ≠ 0
      ∧ (smb311_posix_query_path_info envC6 dataW false).reparse = false
      ∧ (smb311_posix_query_path_info envC6 dataW false).compoundCalls.length
        = 1
      ∧ (smb311_posix_query_path_info envC6 dataW false).rc = -ENOMEM := by
  decide

/-- C6 amended: on a first PosixQueryInfo failure with `-EOPNOTSUPP`, if
the open response declares a symlink stop and parsing the target fails, the
parse error is returned with no retry and `reparse` unset; otherwise —
including when no raw response is available or it is not a symlink stop —
`reparse` is unconditionally set true and the retry with reparse-point
creation options and no diagnostics is issued, its result returned
verbatim. -/
theorem claim6_amended_posix_retry (env : PathEnv) (dataIn : OpenInfoData)
    (nrIn : Bool)
    (hrc : (pqOut0 env dataIn nrIn).rc = -EOPNOTSUPP) :
    (posixSymlinkHdr (pqErr0 env dataIn nrIn) = true →
        env.parse_symlink_rc ≠ 0 →
        (smb311_posix_query_path_info env dataIn nrIn).rc
            = env.parse_symlink_rc
          ∧ (smb311_posix_query_path_info env dataIn nrIn).reparse = false
          ∧ (smb311_posix_query_path_info env dataIn nrIn).compoundCalls
            = [⟨0, true⟩])
      ∧ ((env.parse_symlink_rc = 0
            ∨ posixSymlinkHdr (pqErr0 env dataIn nrIn) = false) →
        (smb311_posix_query_path_info env dataIn nrIn).reparse = true
          ∧ (smb311_posix_query_path_info env dataIn nrIn).compoundCalls
            = [⟨0, true⟩, ⟨OPEN_REPARSE_POINT, false⟩]
          ∧ (smb311_posix_query_path_info env dataIn nrIn).rc
            = (pqRetry env dataIn nrIn).rc) := by
  have hl : Nat.lor 0 OPEN_REPARSE_POINT = OPEN_REPARSE_POINT := rfl
  constructor
  · intro hs hp
    have hp2 : (env.parse_symlink_rc != 0) = true := by simp [hp]
    simp [smb311_posix_query_path_info, hrc, hs, hp2]
  · intro h
    rcases h with hp | hs
    · simp [smb311_posix_query_path_info, hrc, hp, hl]
    · simp [smb311_posix_query_path_info, hrc, hs, hl]

/-- C6 amended witness: parse succeeding on a recognized symlink stop, the
posix wrapper retries once with reparse-point options. -/
theorem claim6_witness :
    (pqOut0 basePathEnv dataW false).rc = -EOPNOTSUPP
      ∧ (smb311_posix_query_path_info basePathEnv dataW false).reparse = true
      ∧ (smb311_posix_query_path_info basePathEnv dataW false).compoundCalls
        = [⟨0, true⟩, ⟨OPEN_REPARSE_POINT, false⟩] := by
  have h := claim6_amended_posix_retry basePathEnv dataW false (by decide)
  exact ⟨by decide, (h.2 (Or.inl rfl)).1, (h.2 (Or.inl rfl)).2.1⟩

/-- C10: `smb2_set_file_info` on a basic-attributes structure whose five
fields are all zero returns 0 immediately: no tlink is acquired, no compound
transaction is built, and the connection state is unchanged. -/
theorem claim10_set_file_info_noop (env : SetInfoEnv) (buf : FILE_BASIC_INFO)
    (nrIn : Bool) (h1 : buf.CreationTime = 0) (h2 : buf.LastAccessTime = 0)
    (h3 : buf.LastWriteTime = 0) (h4 : buf.ChangeTime = 0)
    (h5 : buf.Attributes = 0) :
    (smb2_set_file_info env buf nrIn).rc = 0
      ∧ (smb2_set_file_info env buf nrIn).compoundCalls = 0
      ∧ (smb2_set_file_info env buf nrIn).tlink_acquired = false
      ∧ (smb2_set_file_info env buf nrIn).need_reconnect = nrIn := by
  simp [smb2_set_file_info, h1, h2, h3, h4, h5]

/-- C10 witness: the all-zero structure at a concrete environment. -/
theorem claim10_witness :
    (FILE_BASIC_INFO.mk 0 0 0 0 0).CreationTime = 0
      ∧ (smb2_set_file_info ⟨none, none, envW⟩ ⟨0, 0, 0, 0, 0⟩ true).rc = 0
      ∧ (smb2_set_file_info ⟨none, none, envW⟩ ⟨0, 0, 0, 0, 0⟩ true).compoundCalls
          = 0
      ∧ (smb2_set_file_info ⟨none, none, envW⟩ ⟨0, 0, 0, 0, 0⟩ true).tlink_acquired
          = false
      ∧ (smb2_set_file_info ⟨none, none, envW⟩ ⟨0, 0, 0, 0, 0⟩ true).need_reconnect
          = true :=
  ⟨rfl, (claim10_set_file_info_noop ⟨none, none, envW⟩ ⟨0, 0, 0, 0, 0⟩ true
    rfl rfl rfl rfl rfl).1,
   (claim10_set_file_info_noop ⟨none, none, envW⟩ ⟨0, 0, 0, 0, 0⟩ true
    rfl rfl rfl rfl rfl).2.1,
   (claim10_set_file_info_noop ⟨none, none, envW⟩ ⟨0, 0, 0, 0, 0⟩ true
    rfl rfl rfl rfl rfl).2.2.1,
   (claim10_set_file_info_noop ⟨none, none, envW⟩ ⟨0, 0, 0, 0, 0⟩ true
    rfl rfl rfl rfl rfl).2.2.2⟩

end Smb2Inode
